import Mathlib

/-!
Verification of the renderer/symbology engine of the geoApi repository
(file: the symbology module, `src/unnamed/part_000`).

The JavaScript source is shallowly embedded as executable Lean definitions:

* JS numbers are modelled as rationals (`ℚ`); every numeric value occurring
  in this module is produced by finite arithmetic on inputs, so no
  floating-point rounding is modelled.
* A JS value that may be `undefined` is modelled as an `Option`; `none` is
  `undefined`.  Feature-attribute values are `Value` (string, number or
  `null`; a missing key is `undefined` = `none` at lookup).
* A function that can throw a `TypeError` (or an explicit `throw`) returns
  `Except String _`; `.error` is a thrown exception.
* Objects are structures mirroring the server-JSON shapes the code reads.
  Numeric fields that the code dereferences unconditionally (`minValue`,
  a marker symbol's `size`, a line symbol's `width`) are modelled as plain
  rationals; fields the code guards, or that may legitimately be absent,
  are `Option`s.
-/

/-- Size of images to output (`maxW` in the source). -/
def maxW : ℕ := 32

/-- Size of images to output (`maxH` in the source). -/
def maxH : ℕ := 32

/-- Layer symbology type tag `'simple'`. -/
def SIMPLE : String := "simple"

/-- Layer symbology type tag `'uniqueValue'`. -/
def UNIQUE_VALUE : String := "uniqueValue"

/-- Layer symbology type tag `'classBreaks'`. -/
def CLASS_BREAKS : String := "classBreaks"

/-- JS string interpolation / property-key coercion of a possibly-undefined
string: `undefined` prints (and keys) as the string "undefined". -/
def jsStr : Option String → String
  | some s => s
  | none => "undefined"

/-- JS truthiness of a possibly-undefined string: `undefined` and the empty
string are falsy. -/
def optTruthy : Option String → Bool
  | some s => s ≠ ""
  | none => false

/-- The digits of a natural number, little-endian, in base 10.  Fuel is the
number itself, which bounds the digit count. -/
def natDigitsAux : ℕ → ℕ → List ℕ
  | 0, _ => []
  | _ + 1, n => if n = 0 then [] else n % 10 :: natDigitsAux n (n / 10)

/-- Decimal string of a natural number (kernel-reducible, used instead of
`toString` so that concrete proofs can evaluate it). -/
def natToString (n : ℕ) : String :=
  if n = 0 then "0"
  else String.mk ((natDigitsAux n n).reverse.map (fun d => Char.ofNat (48 + d)))

/-- Decimal string of an integer. -/
def intToString (i : ℤ) : String :=
  if i < 0 then "-" ++ natToString i.natAbs else natToString i.natAbs

/-- Left-pad a string with the digit 0 to the given length. -/
def padZeros (len : ℕ) (s : String) : String :=
  String.mk (List.replicate (len - s.length) (Char.ofNat 48)) ++ s

/-- JS `Number.prototype.toString` on a nonnegative rational: integers print
with no point; a terminating decimal (up to 40 fractional digits) prints with
its minimal digits.  A rational with a non-terminating decimal expansion is
not representable as a JS double; for totality it prints as num/den. -/
def qToStringPos (q : ℚ) : String :=
  if q.den = 1 then intToString q.num
  else
    match (List.range 40).find? (fun k => (q * (10 : ℚ) ^ (k + 1)).den = 1) with
    | some k =>
        let total := (q * (10 : ℚ) ^ (k + 1)).num.toNat
        intToString (total / 10 ^ (k + 1) : ℕ) ++ "." ++
          padZeros (k + 1) (natToString (total % 10 ^ (k + 1)))
    | none => intToString q.num ++ "/" ++ natToString q.den

/-- JS `Number.prototype.toString`, total model over `ℚ`. -/
def qToString (q : ℚ) : String :=
  if q < 0 then "-" ++ qToStringPos (-q) else qToStringPos q

/-- A feature-attribute scalar value: string, number or null (spec section 3:
"a mapping from field name to scalar value (string, number, null)"). -/
inductive Value where
  | str (s : String)
  | num (q : ℚ)
  | null
  deriving DecidableEq

/-- Feature attributes: a mapping from field name to scalar value. -/
abbrev Attributes : Type := List (String × Value)

/-- JS property read `attributes[field]`: `undefined` (`none`) when the key
is absent. -/
def attrGet (attributes : Attributes) (field : String) : Option Value :=
  (List.find? (fun p => p.1 == field) attributes).map (fun p => p.2)

/-- JS `ToNumber` on a list of characters holding an optionally signed
decimal numeral (integer part, optional point, fraction part). -/
def charsToNum : List Char → Option ℚ
  | cs =>
    let digitsVal : List Char → Option (ℚ × ℕ) :=
      fun ds => ds.foldl
        (fun acc c =>
          match acc with
          | none => none
          | some (v, k) => if c.isDigit then some (v * 10 + ((c.toNat - 48 : ℕ) : ℚ), k + 1) else none)
        (some (0, 0))
    let (sign, body) :=
      match cs with
      | c :: rest => if c = Char.ofNat 45 then ((-1 : ℚ), rest)
                     else if c = Char.ofNat 43 then ((1 : ℚ), rest) else ((1 : ℚ), cs)
      | [] => ((1 : ℚ), cs)
    match body.splitOn (Char.ofNat 46) with
    | [ip] =>
        match digitsVal ip with
        | some (v, k) => if k = 0 then none else some (sign * v)
        | none => none
    | [ip, fp] =>
        match digitsVal ip, digitsVal fp with
        | some (vi, ki), some (vf, kf) =>
            if ki = 0 ∧ kf = 0 then none
            else some (sign * (vi + vf / 10 ^ kf))
        | _, _ => none
    | _ => none

/-- JS `Number(string)`: whitespace-trimmed; empty is 0; otherwise an
optionally signed decimal numeral (the model covers the decimal forms;
hex/exponent forms, absent from this repository's data, are not modelled). -/
def strToNum (s : String) : Option ℚ :=
  let cs := (s.data.dropWhile (fun c => c.isWhitespace)).reverse.dropWhile
    (fun c => c.isWhitespace) |>.reverse
  if cs.isEmpty then some 0 else charsToNum cs

/-- JS `ToNumber` of a possibly-undefined attribute value, as used by the
relational operators: `none` result stands for NaN (every comparison with
it is false). -/
def jsToNum : Option Value → Option ℚ
  | none => none
  | some Value.null => some 0
  | some (Value.num q) => some q
  | some (Value.str s) => strToNum s

/-- JS `x < q` where `x` is a possibly-undefined attribute value and `q` a
number: NaN compares false. -/
def jsLt (x : Option Value) (q : ℚ) : Bool :=
  match jsToNum x with
  | some v => decide (v < q)
  | none => false

/-- JS `x > q`: NaN compares false. -/
def jsGt (x : Option Value) (q : ℚ) : Bool :=
  match jsToNum x with
  | some v => decide (q < v)
  | none => false

/-- JS `x <= q`: NaN compares false. -/
def jsLe (x : Option Value) (q : ℚ) : Bool :=
  match jsToNum x with
  | some v => decide (v ≤ q)
  | none => false

/-- JS `value.toString()` as used for the unique-value graphic key: a string
is kept as is (the source skips the call when `typeof` is string), a number
stringifies, and `null`/`undefined` throw (`none` here). -/
def jsToStringStrict : Option Value → Option String
  | some (Value.str s) => some s
  | some (Value.num q) => some (qToString q)
  | some Value.null => none
  | none => none

/-- JS string concatenation coercion `'' + value` (used for `field2`/`field3`
in the unique-value key): `undefined` and `null` concatenate as their names. -/
def jsConcat : Option Value → String
  | none => "undefined"
  | some Value.null => "null"
  | some (Value.str s) => s
  | some (Value.num q) => qToString q

/-- An ESRI colour: a 4-component array [r, g, b, alpha]. -/
structure Colour where
  r : ℚ
  g : ℚ
  b : ℚ
  a : ℚ
  deriving DecidableEq

/-- The line-paint fields (`color`, `style`, `width`) that `applyLine` reads,
either from a line symbol itself or from a marker/fill symbol's `outline`
object.  `width` is dereferenced unconditionally by the source
(`lineSymbol.width.toString()`), so it is modelled as required. -/
structure Outline where
  color : Option Colour
  style : Option String
  width : ℚ
  deriving DecidableEq

/-- An ESRI symbol object in server JSON form, with the fields this module
reads.  `size` is dereferenced unconditionally for markers, so it is
modelled as required (irrelevant for the other kinds). -/
structure ESymbol where
  type : String
  color : Option Colour
  style : Option String
  size : ℚ
  angle : Option ℚ
  path : Option String
  width : ℚ
  outline : Option Outline
  imageData : Option String
  contentType : Option String
  deriving DecidableEq

/-- The line-paint view of a symbol, used when `applyLine` receives the
symbol itself (line symbols). -/
def ESymbol.toOutline (s : ESymbol) : Outline :=
  { color := s.color, style := s.style, width := s.width }

/-- One entry of a unique-value renderer's `uniqueValueInfos`. -/
structure UVInfo where
  value : String
  label : String
  symbol : ESymbol
  imageUrl : Option String
  deriving DecidableEq

/-- One entry of a class-breaks renderer's `classBreakInfos`. -/
structure CBInfo where
  maxValue : ℚ
  label : String
  symbol : ESymbol
  imageUrl : Option String
  deriving DecidableEq

/-- An ESRI renderer object in server JSON form (spec section 6), with the
fields this module reads and writes.  `minValue` is used unconditionally in
arithmetic by the class-breaks search, so it is modelled as required. -/
structure Renderer where
  type : String
  symbol : Option ESymbol
  label : Option String
  imageUrl : Option String
  field1 : Option String
  field2 : Option String
  field3 : Option String
  uniqueValueInfos : List UVInfo
  field : Option String
  minValue : ℚ
  classBreakInfos : List CBInfo
  defaultSymbol : Option ESymbol
  defaultLabel : Option String
  defaultImageUrl : Option String
  deriving DecidableEq

/-- One legend item `{label, imageData, contentType, base}`.  `label` keeps
the JS possibly-undefined shape; `imageData`/`contentType` may be copied
from absent picture-symbol fields. -/
structure LegendEntry where
  label : Option String
  imageData : Option String
  contentType : Option String
  base : String
  deriving DecidableEq

/-- One layer section of a legend: `{layerId, legend}`. -/
structure LegendLayer where
  layerId : ℤ
  legend : List LegendEntry
  deriving DecidableEq

/-- A legend object matching the ESRI REST API form: `{layers: [...]}`. -/
structure Legend where
  layers : List LegendLayer
  deriving DecidableEq

/-- The result shape of `searchRenderer`: `{imageUrl, symbol}`.  The source
initialises `imageUrl` to the empty string and `symbol` to an empty object;
`none` models both the JS `undefined` and that initial empty object. -/
structure RendResult where
  imageUrl : Option String
  symbol : Option ESymbol
  deriving DecidableEq

/-- The default icon/symbol pair of a renderer, as assigned by the
class-breaks and unique-value fallthroughs. -/
def defaultResult (renderer : Renderer) : RendResult :=
  { imageUrl := renderer.defaultImageUrl, symbol := renderer.defaultSymbol }

/-- Embedding of `searchRenderer(attributes, renderer)`: given feature
attributes, find the renderer node that would draw it.  `.error` models a
thrown `TypeError` (the unique-value branch calls `.toString()` on the
`field1` attribute value, which throws when that value is null or absent). -/
def searchRenderer (attributes : Attributes) (renderer : Renderer) :
    Except String RendResult :=
  if renderer.type = SIMPLE then
    .ok { imageUrl := renderer.imageUrl, symbol := renderer.symbol }
  else if renderer.type = UNIQUE_VALUE then
    match jsToStringStrict (attrGet attributes (jsStr renderer.field1)) with
    | none => .error "TypeError: cannot read toString of null or undefined"
    | some key1 =>
        let graphicKey :=
          if optTruthy renderer.field2 then
            let key2 := key1 ++ ", " ++ jsConcat (attrGet attributes (jsStr renderer.field2))
            if optTruthy renderer.field3 then
              key2 ++ ", " ++ jsConcat (attrGet attributes (jsStr renderer.field3))
            else key2
          else key1
        match renderer.uniqueValueInfos.find? (fun uvi => uvi.value == graphicKey) with
        | some uvi => .ok { imageUrl := uvi.imageUrl, symbol := some uvi.symbol }
        | none => .ok (defaultResult renderer)
  else if renderer.type = CLASS_BREAKS then
    let gVal := attrGet attributes (jsStr renderer.field)
    let lower := renderer.minValue
    if jsLt gVal lower then .ok (defaultResult renderer)
    else
      let minSplits := (lower - 1) :: renderer.classBreakInfos.map (fun cbi => cbi.maxValue)
      match (renderer.classBreakInfos.zip minSplits).find?
          (fun p => jsGt gVal p.2 && jsLe gVal p.1.maxValue) with
      | some p => .ok { imageUrl := p.1.imageUrl, symbol := some p.1.symbol }
      | none => .ok (defaultResult renderer)
  else
    .ok { imageUrl := some "", symbol := none }

/-- Embedding of `getGraphicIcon(attributes, renderer)`. -/
def getGraphicIcon (attributes : Attributes) (renderer : Renderer) :
    Except String (Option String) :=
  (searchRenderer attributes renderer).map (fun r => r.imageUrl)

/-- Embedding of `getGraphicSymbol(attributes, renderer)`. -/
def getGraphicSymbol (attributes : Attributes) (renderer : Renderer) :
    Except String (Option ESymbol) :=
  (searchRenderer attributes renderer).map (fun r => r.symbol)

/-- An esri LOD record, of which `getZoomLevel` reads only `.scale`. -/
structure Lod where
  scale : ℚ
  deriving DecidableEq

/-- One pass of `getZoomLevel`'s binary-search `while` loop, run with fuel.
Returns `none` when the fuel runs out (the loop has not terminated),
`some (.error _)` when the JS would throw (`lods[currentLod]` out of bounds,
so `.scale` is read from `undefined`), and `some (.ok i)` on return. -/
def zoomLoop (lods : List Lod) (scaleLimit : ℚ) :
    ℕ → ℤ → ℤ → ℤ → Option (Except String ℤ)
  | 0, _, _, _ => none
  | fuel + 1, lowLod, highLod, currentLod =>
    match (if 0 ≤ currentLod then lods.get? currentLod.toNat else none) with
    | none => some (.error "TypeError: cannot read scale of undefined")
    | some lod =>
        let lowNext := if lod.scale ≥ scaleLimit then currentLod else lowLod
        let highNext := if lod.scale ≥ scaleLimit then highLod else currentLod
        let currentNext := (highNext + lowNext) / 2
        if highNext = lowNext + 1 then some (.ok currentNext)
        else zoomLoop lods scaleLimit fuel lowNext highNext currentNext

/-- Embedding of `getZoomLevel(lods, maxScale)`: takes the lod list and finds
the level as close to and above the scale limit.  `Math.ceil(len / 2)` is
`(len + 1) / 2` on naturals and `Math.floor(x / 2)` on the loop's integers is
integer division (Lean's `Int` division floors for a positive divisor). -/
def getZoomLevel (lods : List Lod) (maxScale : ℚ) (fuel : ℕ) :
    Option (Except String ℤ) :=
  if maxScale = 0 then some (.ok ((lods.length : ℤ) - 1))
  else zoomLoop lods maxScale fuel 0 ((lods.length : ℤ) - 1) (((lods.length + 1) / 2 : ℕ) : ℤ)

/-- A single-quote character, built by code point so SVG strings can carry it. -/
def squo : String := String.mk [Char.ofNat 39]

/-- The blank 32x32 SVG fallback (`emptySVG` in the source, written there
with single quotes so they will not be escaped). -/
def emptySVG : String :=
  "<svg xmlns=" ++ squo ++ "http://www.w3.org/2000/svg" ++ squo ++ " width=" ++ squo
    ++ "32" ++ squo ++ " height=" ++ squo ++ "32" ++ squo ++ "></svg>"

/-- Embedding of `colourToRgb(c)`: an ESRI colour in SVG rgb format;
no colour means no paint. -/
def colourToRgb : Option Colour → String
  | some c => "rgb(" ++ qToString c.r ++ "," ++ qToString c.g ++ "," ++ qToString c.b ++ ")"
  | none => "none"

/-- Embedding of `colourToOpacity(c)`: the colour's alpha component as text. -/
def colourToOpacity : Option Colour → String
  | some c => qToString c.a
  | none => "0"

/-- One name/value property of an SVG tag (see `newSVG` in the source). -/
structure SVGProp where
  name : String
  value : String
  deriving DecidableEq

/-- The utility object of `newSVG(type)`: an element type plus an ordered
property collection (`addProp` appends; modelled by list append). -/
structure SVGObj where
  type : String
  props : List SVGProp
  deriving DecidableEq

/-- Embedding of `mySVG.belch()`: the svg tag as a string (double-quoted
attribute values; `makeSVG` later rewrites the quotes). -/
def belch (svg : SVGObj) : String :=
  "<" ++ svg.type ++
    (svg.props.foldl (fun prev p => prev ++ " " ++ p.name ++ "=\"" ++ p.value ++ "\"") "")
    ++ " />"

/-- Embedding of `applyFill(symbol, svg)`: non-solid simple-fill styles force
fill none (hatch patterns are unsupported in data URLs); otherwise the
symbol's own colour; even-odd fill rule always. -/
def applyFill (symbol : ESymbol) (svg : SVGObj) : SVGObj :=
  let fill :=
    if symbol.type = "esriSFS" ∧ symbol.style ≠ some "esriSFSSolid" then "none"
    else colourToRgb symbol.color
  { svg with props := svg.props ++
      [ { name := "fill", value := fill },
        { name := "fill-opacity", value := colourToOpacity symbol.color },
        { name := "fill-rule", value := "evenodd" } ] }

/-- The source's `dashMap` lookup table, keyed by a possibly-undefined line
style; an unlisted key gives `undefined`, which the SVG property renders as
the text "undefined". -/
def dashMap : Option String → String
  | some "esriSLSSolid" => "none"
  | some "esriSLSDash" => "5.333,4"
  | some "esriSLSDashDot" => "5.333,4,1.333,4"
  | some "esriSLSLongDashDotDot" => "10.666,4,1.333,4,1.333,4"
  | some "esriSLSDot" => "1.333,4"
  | some "esriSLSLongDash" => "10.666,4"
  | some "esriSLSLongDashDot" => "10.666,4,1.333,4"
  | some "esriSLSShortDash" => "5.333,1.333"
  | some "esriSLSShortDashDot" => "5.333,1.333,1.333,1.333"
  | some "esriSLSShortDashDotDot" => "5.333,1.333,1.333,1.333,1.333,1.333"
  | some "esriSLSShortDot" => "1.333,1.333"
  | some "esriSLSNull" => "none"
  | _ => "undefined"

/-- Embedding of `applyLine(lineSymbol, svg)`.  The argument is the
line-paint view of a symbol (a line symbol itself, or a marker/fill
symbol's `outline`); when it is absent the JS dereference
`lineSymbol.style` throws, modelled by `.error`. -/
def applyLine (lineSymbol : Option Outline) (svg : SVGObj) : Except String SVGObj :=
  match lineSymbol with
  | none => .error "TypeError: cannot read style of undefined"
  | some ls =>
      let stroke := if ls.style = some "esriSLSNull" then "none" else colourToRgb ls.color
      .ok { svg with props := svg.props ++
        [ { name := "stroke", value := stroke },
          { name := "stroke-opacity", value := colourToOpacity ls.color },
          { name := "stroke-width", value := qToString ls.width },
          { name := "stroke-linecap", value := "butt" },
          { name := "stroke-linejoin", value := "miter" },
          { name := "stroke-miterlimit", value := "4" },
          { name := "stroke-dasharray", value := dashMap ls.style } ] }

/-- Embedding of `applyRotation(symbol, svg)`: a rotation transform around
the canvas centre using the symbol's angle (default 0). -/
def applyRotation (symbol : ESymbol) (svg : SVGObj) : SVGObj :=
  let angle := symbol.angle.getD 0
  { svg with props := svg.props ++
      [ { name := "transform",
          value := "rotate(" ++ qToString angle ++ "," ++ qToString (maxW / 2 : ℕ)
            ++ "," ++ qToString (maxH / 2 : ℕ) ++ ")" } ] }

/-- The circle radius drawn by `makeCircleSVG`: size is the diameter,
capped at the max image size. -/
def circleRadius (size : ℚ) : ℚ :=
  min (size / 2) (((maxW : ℚ) - 4) / 2)

/-- Embedding of `makeCircleSVG(symbol)`: a centred circle whose radius is
half the size, capped at the canvas. -/
def makeCircleSVG (symbol : ESymbol) : SVGObj :=
  { type := "circle",
    props :=
      [ { name := "r", value := qToString (circleRadius symbol.size) },
        { name := "cx", value := qToString (maxW / 2 : ℕ) },
        { name := "cy", value := qToString (maxH / 2 : ℕ) } ] }

/-- The boundaries object of `getGlyphCorners(size)`: upper-left, lower-right
and middle coordinates of the glyph bounding box. -/
structure Corners where
  upLeft : ℚ
  loRite : ℚ
  middle : ℚ
  deriving DecidableEq

/-- Embedding of `getGlyphCorners(size)`: if the marker is too big, make it
fit (cap at max image size minus inset). -/
def getGlyphCorners (size : ℚ) : Corners :=
  let trimSize := min size ((maxW : ℚ) - 4)
  let offset := trimSize / 2
  let middle := (maxW : ℚ) / 2
  { upLeft := middle - offset, loRite := middle + offset, middle := middle }

/-- The drawing path chosen by `makeGlyphSVG` for a non-circle marker:
a custom path is passed through; the named glyphs use the corner box;
an unrecognised style leaves the path `undefined`. -/
def glyphPath (symbol : ESymbol) : Option String :=
  if symbol.style = some "esriSMSPath" then symbol.path
  else
    let c := getGlyphCorners symbol.size
    let ul := qToString c.upLeft
    let lr := qToString c.loRite
    let mid := qToString c.middle
    match symbol.style with
    | some "esriSMSCross" =>
        some ("M " ++ ul ++ "," ++ mid ++ " " ++ lr ++ "," ++ mid ++ " M " ++ mid ++ ","
          ++ lr ++ " " ++ mid ++ "," ++ ul)
    | some "esriSMSDiamond" =>
        some ("M " ++ ul ++ "," ++ mid ++ " " ++ mid ++ "," ++ lr ++ " " ++ lr ++ ","
          ++ mid ++ " " ++ mid ++ "," ++ ul ++ " Z")
    | some "esriSMSSquare" =>
        some ("M " ++ ul ++ "," ++ ul ++ " " ++ ul ++ "," ++ lr ++ " " ++ lr ++ ","
          ++ lr ++ " " ++ lr ++ "," ++ ul ++ " Z")
    | some "esriSMSX" =>
        some ("M " ++ ul ++ "," ++ ul ++ " " ++ lr ++ "," ++ lr ++ " M " ++ ul ++ ","
          ++ lr ++ " " ++ lr ++ "," ++ ul)
    | some "esriSMSTriangle" =>
        some ("M " ++ ul ++ "," ++ lr ++ " " ++ mid ++ "," ++ ul ++ " " ++ lr ++ ","
          ++ lr ++ " Z")
    | _ => none

/-- Embedding of `makeGlyphSVG(symbol)`: a path element with the chosen
drawing path (an undefined path renders as the text "undefined"). -/
def makeGlyphSVG (symbol : ESymbol) : SVGObj :=
  { type := "path", props := [ { name := "d", value := jsStr (glyphPath symbol) } ] }

/-- Embedding of `makeMarkerSVG(symbol)`: circle or glyph geometry, then
line paint from the outline, fill paint, and rotation. -/
def makeMarkerSVG (symbol : ESymbol) : Except String SVGObj :=
  let base := if symbol.style = some "esriSMSCircle" then makeCircleSVG symbol
              else makeGlyphSVG symbol
  match applyLine symbol.outline base with
  | .error e => .error e
  | .ok svg1 => .ok (applyRotation symbol (applyFill symbol svg1))

/-- Embedding of `makePolySVG(symbol)`: a centred square inset 4 units from
every edge, filled, then outlined per the nested outline symbol. -/
def makePolySVG (symbol : ESymbol) : Except String SVGObj :=
  let rect : SVGObj :=
    { type := "rect",
      props :=
        [ { name := "x", value := "4" },
          { name := "y", value := "4" },
          { name := "width", value := qToString (maxW - 8 : ℕ) },
          { name := "height", value := qToString (maxH - 8 : ℕ) } ] }
  applyLine symbol.outline (applyFill symbol rect)

/-- Embedding of `makeLineSVG(symbol)`: one fixed diagonal reference segment,
stroked per the symbol's own line paint. -/
def makeLineSVG (symbol : ESymbol) : Except String SVGObj :=
  let lineSVG : SVGObj :=
    { type := "path",
      props := [ { name := "d",
                   value := "M 4,4 " ++ qToString (maxW - 4 : ℕ) ++ "," ++ qToString (maxH - 4 : ℕ) } ] }
  applyLine (some symbol.toOutline) lineSVG

/-- Embedding of `makeSVG(symbol)`: dispatch on the symbol type through the
source's `typeHandler` table (an unlisted type calls `undefined`, throwing),
wrap the element in the fixed-size svg container, and rewrite double quotes
to single quotes so the result embeds in a data URI. -/
def makeSVG (symbol : ESymbol) : Except String String :=
  let head := "<svg xmlns=\"http://www.w3.org/2000/svg\" width=\"" ++ qToString (maxW : ℕ)
    ++ "\" height=\"" ++ qToString (maxH : ℕ) ++ "\">"
  let foot := "</svg>"
  let handled : Except String SVGObj :=
    if symbol.type = "esriSMS" then makeMarkerSVG symbol
    else if symbol.type = "esriSLS" then makeLineSVG symbol
    else if symbol.type = "esriCLS" then makeLineSVG symbol
    else if symbol.type = "esriSFS" then makePolySVG symbol
    else .error "TypeError: typeHandler[symbol.type] is not a function"
  match handled with
  | .error e => .error e
  | .ok svg => .ok ((head ++ belch svg ++ foot).replace "\"" squo)

/-- The `try` block of `symbolToLegend`: the legend item fields it computes,
or the exception it raises.  Every error path occurs before any assignment,
so the catch in `symbolToLegend` still sees the initial field values. -/
def symbolToLegendTry (symbol : Option ESymbol) (label : Option String) :
    Except String LegendEntry :=
  match symbol with
  | none => .error "TypeError: cannot read type of undefined"
  | some sym =>
      if sym.type = "esriSMS" ∨ sym.type = "esriSLS" ∨ sym.type = "esriSFS"
          ∨ sym.type = "esriCLS" then
        (makeSVG sym).map (fun img =>
          { label := label, imageData := some img,
            contentType := some "image/svg+xml", base := "" })
      else if sym.type = "esriPMS" ∨ sym.type = "esriPFS" then
        .ok { label := label, imageData := sym.imageData,
              contentType := sym.contentType, base := ";base64" }
      else if sym.type = "esriTS" then
        .error "no support for feature service legend of text symbols"
      else
        .ok { label := label, imageData := some emptySVG,
              contentType := some "image/svg+xml", base := "" }

/-- The legend item returned by the catch handler of `symbolToLegend`: the
initial `imageData`/`contentType`/`base` values with the label replaced by
the sentinel. -/
def errorLegendEntry : LegendEntry :=
  { label := some "Error!", imageData := some emptySVG,
    contentType := some "image/svg+xml", base := "" }

/-- Embedding of `symbolToLegend(symbol, label)`: generate a legend item for
an ESRI symbol; any exception is caught, logged, and yields the initial
blank image with the label "Error!". -/
def symbolToLegend (symbol : Option ESymbol) (label : Option String) : LegendEntry :=
  match symbolToLegendTry symbol label with
  | .ok entry => entry
  | .error _ => errorLegendEntry

/-- A child item of a list renderer, as read by `scrapeListRenderer`
(`child.symbol` and `child.label`; the view common to `uniqueValueInfos`
and `classBreakInfos` entries). -/
structure Child where
  symbol : ESymbol
  label : String
  deriving DecidableEq

/-- The child view of a unique-value entry. -/
def UVInfo.toChild (uvi : UVInfo) : Child :=
  { symbol := uvi.symbol, label := uvi.label }

/-- The child view of a class-breaks entry. -/
def CBInfo.toChild (cbi : CBInfo) : Child :=
  { symbol := cbi.symbol, label := cbi.label }

/-- JS `s || ''` on a possibly-undefined string: a falsy value (undefined or
the empty string) falls back to the empty string. -/
def jsOrEmpty (o : Option String) : String :=
  if optTruthy o then o.getD "" else ""

/-- Embedding of `scrapeListRenderer(renderer, childList)`: one legend item
per child, in list order, plus a trailing item for the default symbol when
one is configured (its label `defaultLabel || ''`). -/
def scrapeListRenderer (renderer : Renderer) (childList : List Child) : List LegendEntry :=
  let legend := childList.map (fun child => symbolToLegend (some child.symbol) (some child.label))
  match renderer.defaultSymbol with
  | some ds => legend ++ [symbolToLegend (some ds) (some (jsOrEmpty renderer.defaultLabel))]
  | none => legend

/-- Embedding of `rendererToLegend(renderer, index)`: a legend object with a
single layer section at the given index; an unsupported renderer type logs
an error and leaves the section's legend list empty. -/
def rendererToLegend (renderer : Renderer) (index : ℤ) : Legend :=
  let entries :=
    if renderer.type = SIMPLE then [symbolToLegend renderer.symbol renderer.label]
    else if renderer.type = UNIQUE_VALUE then
      scrapeListRenderer renderer (renderer.uniqueValueInfos.map UVInfo.toChild)
    else if renderer.type = CLASS_BREAKS then
      scrapeListRenderer renderer (renderer.classBreakInfos.map CBInfo.toChild)
    else []
  { layers := [ { layerId := index, legend := entries } ] }

/-- The data URL built for one legend item by `enhanceRenderer`:
`data:<contentType><base>,<imageData>` (undefined fields interpolate as the
text "undefined", as in JS templates). -/
def entryURI (entry : LegendEntry) : String :=
  "data:" ++ jsStr entry.contentType ++ entry.base ++ "," ++ jsStr entry.imageData

/-- The `legendLookup` object of `enhanceRenderer`: label to data URL; the
`forEach` assignments make a later item with the same label win. -/
def legendLookup (entries : List LegendEntry) (key : String) : Option String :=
  (entries.reverse.find? (fun entry => jsStr entry.label == key)).map entryURI

/-- Embedding of `enhanceRenderer(renderer, legend)`: attach `.imageUrl`
(and `.defaultImageUrl`) data URLs looked up by label from the legend's
single layer section.  The source mutates in place; the embedding returns
the updated renderer.  Reading `legend.layers[0].legend` of a legend with no
layer section would throw, modelled by `.error`. -/
def enhanceRenderer (renderer : Renderer) (legend : Legend) : Except String Renderer :=
  match legend.layers.head? with
  | none => .error "TypeError: cannot read legend of undefined"
  | some layer0 =>
      let lookup := legendLookup layer0.legend
      if renderer.type = SIMPLE then
        .ok { renderer with imageUrl := lookup (jsStr renderer.label) }
      else if renderer.type = UNIQUE_VALUE then
        .ok { renderer with
              defaultImageUrl :=
                if optTruthy renderer.defaultLabel then lookup (jsStr renderer.defaultLabel)
                else renderer.defaultImageUrl,
              uniqueValueInfos :=
                renderer.uniqueValueInfos.map
                  (fun uvi => { uvi with imageUrl := lookup uvi.label }) }
      else if renderer.type = CLASS_BREAKS then
        .ok { renderer with
              defaultImageUrl :=
                if optTruthy renderer.defaultLabel then lookup (jsStr renderer.defaultLabel)
                else renderer.defaultImageUrl,
              classBreakInfos :=
                renderer.classBreakInfos.map
                  (fun cbi => { cbi with imageUrl := lookup cbi.label }) }
      else
        .ok renderer

deriving instance DecidableEq for Except

/-- The renderer object after `enhanceRenderer` returns or throws.  The only
exception (`legend.layers[0]` absent) is raised while building the label
lookup, before any mutation, so on a throw the renderer is unchanged. -/
def enhancedRenderer (renderer : Renderer) (legend : Legend) : Renderer :=
  match enhanceRenderer renderer legend with
  | .ok r2 => r2
  | .error _ => renderer

/-- The identity of a unique-value entry apart from its attached icon
reference (used to state what enhancement leaves untouched). -/
def UVInfo.core (uvi : UVInfo) : String × String × ESymbol :=
  (uvi.value, uvi.label, uvi.symbol)

/-- The identity of a class-breaks entry apart from its attached icon
reference. -/
def CBInfo.core (cbi : CBInfo) : ℚ × String × ESymbol :=
  (cbi.maxValue, cbi.label, cbi.symbol)

/-- The zoom-loop outcome contains no out-of-bounds access: it is not a
thrown TypeError (it may be a normal return, or a loop that never exits). -/
def noOob (r : Option (Except String ℤ)) : Prop :=
  ∀ e, r ≠ some (Except.error e)

/-- The lower-bound list the spec describes for class breaks: (minimum - 1)
followed by each entry's upper bound except the last.  (The source builds
the list with all upper bounds; only the first `length` positions are read,
which is the same list.) -/
def cbLowerBounds (renderer : Renderer) : List ℚ :=
  (renderer.minValue - 1) :: (renderer.classBreakInfos.map (fun cbi => cbi.maxValue)).dropLast

/-- Class-breaks selection as the spec words it: below the minimum the
default; otherwise the first entry whose half-open range
lowerBound < v <= upperBound contains v; the default when none does. -/
def cbSpecSelect (renderer : Renderer) (v : ℚ) : RendResult :=
  if v < renderer.minValue then defaultResult renderer
  else
    match ((cbLowerBounds renderer).zip renderer.classBreakInfos).find?
        (fun p => decide (p.1 < v) && decide (v ≤ p.2.maxValue)) with
    | some p => { imageUrl := p.2.imageUrl, symbol := some p.2.symbol }
    | none => defaultResult renderer

/-- Coercion of a non-null attribute value to the lookup-key string (the
claim's "field1's value coerced to string"); null is never passed to it. -/
def valToStr : Value → String
  | Value.str s => s
  | Value.num q => qToString q
  | Value.null => ""

/-- The composite unique-value key as the spec words it: the first field's
value coerced to string, then ", " plus field2's raw value when field2 is
configured, then ", " plus field3's raw value when field3 is also
configured. -/
def uvSpecKey (attributes : Attributes) (renderer : Renderer) (first : String) : String :=
  first ++
    (if optTruthy renderer.field2 then
      ", " ++ jsConcat (attrGet attributes (jsStr renderer.field2)) ++
        (if optTruthy renderer.field3 then
          ", " ++ jsConcat (attrGet attributes (jsStr renderer.field3))
        else "")
    else "")

/-- Unique-value selection as the spec words it: the first entry whose value
equals the key exactly, and otherwise the renderer's default icon/symbol. -/
def uvSpecSelect (renderer : Renderer) (key : String) : RendResult :=
  match renderer.uniqueValueInfos.find? (fun uvi => uvi.value == key) with
  | some uvi => { imageUrl := uvi.imageUrl, symbol := some uvi.symbol }
  | none => defaultResult renderer

/-- A solid outline used by the concrete test renderers. -/
def outA : Outline := { color := none, style := some "esriSLSSolid", width := 1 }

/-- A circle marker symbol used by the concrete test renderers. -/
def symA : ESymbol :=
  { type := "esriSMS", color := none, style := some "esriSMSCircle", size := 10,
    angle := none, path := none, width := 0, outline := some outA,
    imageData := none, contentType := none }

/-- A text symbol (unsupported kind). -/
def tsSym : ESymbol :=
  { type := "esriTS", color := none, style := none, size := 0,
    angle := none, path := none, width := 0, outline := none,
    imageData := none, contentType := none }

/-- A picture marker symbol (passed through verbatim by the legend builder). -/
def pmsSym : ESymbol :=
  { type := "esriPMS", color := none, style := none, size := 0,
    angle := none, path := none, width := 0, outline := none,
    imageData := some "IMGDATA", contentType := some "image/png" }

/-- The class-breaks test renderer of the spec's example: breaks
[10, 20, 30], minimum 0, with a default. -/
def cbR : Renderer :=
  { type := "classBreaks", symbol := none, label := none, imageUrl := none,
    field1 := none, field2 := none, field3 := none, uniqueValueInfos := [],
    field := some "v", minValue := 0,
    classBreakInfos :=
      [ { maxValue := 10, label := "b0", symbol := symA, imageUrl := some "u0" },
        { maxValue := 20, label := "b1", symbol := symA, imageUrl := some "u1" },
        { maxValue := 30, label := "b2", symbol := symA, imageUrl := some "u2" } ],
    defaultSymbol := some symA, defaultLabel := some "dl", defaultImageUrl := some "ud" }

/-- A class-breaks renderer whose entries are not sorted by upper bound
(the source relies solely on list order). -/
def cbUnsortedR : Renderer :=
  { type := "classBreaks", symbol := none, label := none, imageUrl := none,
    field1 := none, field2 := none, field3 := none, uniqueValueInfos := [],
    field := some "v", minValue := 0,
    classBreakInfos :=
      [ { maxValue := 30, label := "b0", symbol := symA, imageUrl := some "u0" },
        { maxValue := 10, label := "b1", symbol := symA, imageUrl := some "u1" } ],
    defaultSymbol := some symA, defaultLabel := some "dl", defaultImageUrl := some "ud" }

/-- The unique-value test renderer of the spec's example: keyed on two
fields, one entry "A, B", with a default. -/
def uvR : Renderer :=
  { type := "uniqueValue", symbol := none, label := none, imageUrl := none,
    field1 := some "f1", field2 := some "f2", field3 := none,
    uniqueValueInfos :=
      [ { value := "A, B", label := "lab", symbol := symA, imageUrl := some "u" } ],
    field := none, minValue := 0, classBreakInfos := [],
    defaultSymbol := some symA, defaultLabel := some "dl", defaultImageUrl := some "ud" }

/-- A simple renderer whose one branch holds a text symbol. -/
def sTextR : Renderer :=
  { type := "simple", symbol := some tsSym, label := some "L", imageUrl := none,
    field1 := none, field2 := none, field3 := none, uniqueValueInfos := [],
    field := none, minValue := 0, classBreakInfos := [],
    defaultSymbol := none, defaultLabel := none, defaultImageUrl := none }

/-- A simple renderer whose one branch holds a picture marker symbol. -/
def sPicR : Renderer :=
  { type := "simple", symbol := some pmsSym, label := some "L", imageUrl := none,
    field1 := none, field2 := none, field3 := none, uniqueValueInfos := [],
    field := none, minValue := 0, classBreakInfos := [],
    defaultSymbol := none, defaultLabel := none, defaultImageUrl := none }

/-- A renderer of a kind this module does not support. -/
def unknownR : Renderer :=
  { type := "heatmap", symbol := none, label := none, imageUrl := none,
    field1 := none, field2 := none, field3 := none, uniqueValueInfos := [],
    field := none, minValue := 0, classBreakInfos := [],
    defaultSymbol := none, defaultLabel := none, defaultImageUrl := none }

/-- The two-level lod list of the spec's example: scales [1000, 100]. -/
def lods2 : List Lod := [ { scale := 1000 }, { scale := 100 } ]

/-- The result built from an optional matched class-breaks entry: the
entry's icon/symbol when one matched, the renderer's default otherwise. -/
def cbResultOf (renderer : Renderer) : Option CBInfo → RendResult
  | some cbi => { imageUrl := cbi.imageUrl, symbol := some cbi.symbol }
  | none => defaultResult renderer

/-- C7: for every marker symbol size s greater than the 32-unit canvas
width, the drawn marker extent never exceeds 32 - 4 = 28 units: a circle
marker's radius is min(s/2, 14) so its diameter is at most 28, and a
named-glyph marker's bounding box spans exactly min(s, 28) units, with
corners at 16 minus and plus min(s, 28)/2, for every size s;
`makeCircleSVG` draws exactly that radius. -/
theorem marker_extent_clamped (s : ℚ) :
    (32 < s →
      2 * circleRadius s ≤ 28 ∧
      (getGlyphCorners s).loRite - (getGlyphCorners s).upLeft ≤ 28)
    ∧ circleRadius s = min (s / 2) 14
    ∧ (getGlyphCorners s).loRite - (getGlyphCorners s).upLeft = min s 28
    ∧ (getGlyphCorners s).upLeft = 16 - min s 28 / 2
    ∧ (getGlyphCorners s).loRite = 16 + min s 28 / 2
    ∧ (makeCircleSVG { type := "esriSMS", color := none,
                       style := some "esriSMSCircle",
                       size := s, angle := none, path := none, width := 0,
                       outline := none,
                       imageData := none, contentType := none }).props.head? =
        some { name := "r", value := qToString (circleRadius s) } := by
  have h14 : circleRadius s = min (s / 2) 14 := by
    simp [circleRadius, maxW]
    norm_num
  have hc : getGlyphCorners s = { upLeft := 16 - min s 28 / 2, loRite := 16 + min s 28 / 2, middle := 16 } := by
    simp [getGlyphCorners, maxW]
    norm_num
  refine ⟨fun _ => ⟨?_, ?_⟩, h14, ?_, ?_, ?_, ?_⟩
  · rw [h14]
    have : min (s / 2) 14 ≤ 14 := min_le_right _ _
    linarith
  · rw [hc]
    have : min s 28 ≤ 28 := min_le_right _ _
    ring_nf
    linarith
  · rw [hc]
    ring
  · rw [hc]
  · rw [hc]
  · simp [makeCircleSVG]

/-- Witness for C7 at the concrete oversized size 50. -/
theorem marker_extent_clamped_witness :
    (32 : ℚ) < 50 ∧ 2 * circleRadius 50 ≤ 28 := by
  have h := marker_extent_clamped 50
  exact ⟨by norm_num, (h.1 (by norm_num)).1⟩

/-- C8: `rendererToLegend` always returns (it never throws): exactly one
layer entry, whose layerId is the given index; for an unsupported renderer
type the legend list is empty (after logging an error), and for each
supported type the single layer carries all generated legend entries. -/
theorem rendererToLegend_shape (renderer : Renderer) (index : ℤ) :
    (rendererToLegend renderer index).layers.length = 1
    ∧ (∀ layer ∈ (rendererToLegend renderer index).layers, layer.layerId = index)
    ∧ (renderer.type ≠ SIMPLE → renderer.type ≠ UNIQUE_VALUE → renderer.type ≠ CLASS_BREAKS →
        rendererToLegend renderer index = { layers := [ { layerId := index, legend := [] } ] })
    ∧ (renderer.type = SIMPLE →
        rendererToLegend renderer index =
          { layers := [ { layerId := index,
                          legend := [symbolToLegend renderer.symbol renderer.label] } ] })
    ∧ (renderer.type = UNIQUE_VALUE →
        rendererToLegend renderer index =
          { layers := [ { layerId := index,
                          legend := scrapeListRenderer renderer
                            (renderer.uniqueValueInfos.map UVInfo.toChild) } ] })
    ∧ (renderer.type = CLASS_BREAKS →
        rendererToLegend renderer index =
          { layers := [ { layerId := index,
                          legend := scrapeListRenderer renderer
                            (renderer.classBreakInfos.map CBInfo.toChild) } ] }) := by
  unfold rendererToLegend
  split_ifs with h1 h2 h3 <;>
    simp_all [SIMPLE, UNIQUE_VALUE, CLASS_BREAKS]

/-- Witness for C8: an unsupported renderer type yields the structurally
empty legend at the requested index. -/
theorem rendererToLegend_shape_witness :
    rendererToLegend unknownR 7 = { layers := [ { layerId := 7, legend := [] } ] } := by
  have h := rendererToLegend_shape unknownR 7
  exact h.2.2.1 (by decide) (by decide) (by decide)

/-- C5: a text-symbol (esriTS) branch produces the legend entry holding the
fixed blank 32x32 SVG and the label "Error!"; `scrapeListRenderer` converts
every child independently (the entry at each index depends only on that
child), and any exception inside one entry's construction is caught there
and replaced by the same blank-plus-"Error!" entry, so no exception escapes
and no sibling entry is lost. -/
theorem textSymbol_degrades (sym : ESymbol) (label : Option String)
    (renderer : Renderer) (childList : List Child) (c : Child) (j : ℕ) :
    errorLegendEntry =
      { label := some "Error!", imageData := some emptySVG,
        contentType := some "image/svg+xml", base := "" }
    ∧ (sym.type = "esriTS" → symbolToLegend (some sym) label = errorLegendEntry)
    ∧ (childList.get? j = some c →
        (scrapeListRenderer renderer childList).get? j =
          some (symbolToLegend (some c.symbol) (some c.label)))
    ∧ (∀ e, symbolToLegendTry (some sym) label = .error e →
        symbolToLegend (some sym) label = errorLegendEntry) := by
  refine ⟨rfl, ?_, ?_, ?_⟩
  · intro h
    simp [symbolToLegend, symbolToLegendTry, h]
  · intro hj
    have hlt : j < childList.length := by
      rcases List.get?_eq_some.mp hj with ⟨hl, -⟩
      exact hl
    have hmap : (childList.map
        (fun child => symbolToLegend (some child.symbol) (some child.label))).get? j =
        some (symbolToLegend (some c.symbol) (some c.label)) := by
      rw [List.get?_map, hj]
      rfl
    cases hds : renderer.defaultSymbol with
    | none => simpa [scrapeListRenderer, hds] using hmap
    | some ds =>
        have : j < (childList.map
            (fun child => symbolToLegend (some child.symbol) (some child.label))).length := by
          simpa using hlt
        simp only [scrapeListRenderer, hds]
        rw [List.get?_append this]
        exact hmap
  · intro e he
    simp [symbolToLegend, he]

/-- Witness for C5: the concrete text symbol degrades to the blank entry,
and a picture-symbol sibling at index 1 is still converted. -/
theorem textSymbol_degrades_witness :
    symbolToLegend (some tsSym) (some "L") = errorLegendEntry
    ∧ (scrapeListRenderer uvR [ { symbol := tsSym, label := "t" },
                                { symbol := pmsSym, label := "p" } ]).get? 1 =
        some (symbolToLegend (some pmsSym) (some "p")) := by
  have h := textSymbol_degrades tsSym (some "L") uvR
    [ { symbol := tsSym, label := "t" }, { symbol := pmsSym, label := "p" } ]
    { symbol := pmsSym, label := "p" } 1
  exact ⟨h.2.1 (by decide), h.2.2.1 (by decide)⟩

/-- C9: `enhanceRenderer` only attaches icon-reference fields and changes
nothing else.  For an unknown renderer type the renderer is left fully
unmodified; for every outcome, `type`, `symbol`, `label`, the field names,
`minValue`, the default symbol/label and the identity of every
unique-value/class-breaks entry (value, label, symbol) are unchanged; a
simple renderer's entry lists and defaultImageUrl are untouched, a
unique-value/class-breaks renderer's own imageUrl and the other kind's
entry list are untouched, and `defaultImageUrl` is untouched unless a
default label is configured. -/
theorem enhanceRenderer_frame (renderer : Renderer) (legend : Legend) :
    (renderer.type ≠ SIMPLE → renderer.type ≠ UNIQUE_VALUE → renderer.type ≠ CLASS_BREAKS →
      enhancedRenderer renderer legend = renderer)
    ∧ (enhancedRenderer renderer legend).type = renderer.type
    ∧ (enhancedRenderer renderer legend).symbol = renderer.symbol
    ∧ (enhancedRenderer renderer legend).label = renderer.label
    ∧ (enhancedRenderer renderer legend).field1 = renderer.field1
    ∧ (enhancedRenderer renderer legend).field2 = renderer.field2
    ∧ (enhancedRenderer renderer legend).field3 = renderer.field3
    ∧ (enhancedRenderer renderer legend).field = renderer.field
    ∧ (enhancedRenderer renderer legend).minValue = renderer.minValue
    ∧ (enhancedRenderer renderer legend).defaultSymbol = renderer.defaultSymbol
    ∧ (enhancedRenderer renderer legend).defaultLabel = renderer.defaultLabel
    ∧ (enhancedRenderer renderer legend).uniqueValueInfos.map UVInfo.core =
        renderer.uniqueValueInfos.map UVInfo.core
    ∧ (enhancedRenderer renderer legend).classBreakInfos.map CBInfo.core =
        renderer.classBreakInfos.map CBInfo.core
    ∧ (renderer.type = SIMPLE →
        (enhancedRenderer renderer legend).uniqueValueInfos = renderer.uniqueValueInfos
        ∧ (enhancedRenderer renderer legend).classBreakInfos = renderer.classBreakInfos
        ∧ (enhancedRenderer renderer legend).defaultImageUrl = renderer.defaultImageUrl)
    ∧ (renderer.type ≠ SIMPLE →
        (enhancedRenderer renderer legend).imageUrl = renderer.imageUrl)
    ∧ (optTruthy renderer.defaultLabel = false →
        (enhancedRenderer renderer legend).defaultImageUrl = renderer.defaultImageUrl)
    ∧ (renderer.type = UNIQUE_VALUE →
        (enhancedRenderer renderer legend).classBreakInfos = renderer.classBreakInfos)
    ∧ (renderer.type = CLASS_BREAKS →
        (enhancedRenderer renderer legend).uniqueValueInfos = renderer.uniqueValueInfos) := by
  unfold enhancedRenderer enhanceRenderer
  cases hl : legend.layers.head? with
  | none => simp
  | some layer0 =>
      split_ifs with h1 h2 h3 <;>
        simp_all [SIMPLE, UNIQUE_VALUE, CLASS_BREAKS, UVInfo.core, CBInfo.core,
          Function.comp]

/-- Witness for C9: an unknown renderer type is returned unmodified. -/
theorem enhanceRenderer_frame_witness :
    enhancedRenderer unknownR (rendererToLegend unknownR 0) = unknownR := by
  have h := enhanceRenderer_frame unknownR (rendererToLegend unknownR 0)
  exact h.1 (by decide) (by decide) (by decide)

/-- Helper for C6: once the loop reaches low = high = current = 1 on the
two-level list with threshold 100, it steps back to the same state, so it
never exits whatever the fuel. -/
theorem zoomLoop_spin (fuel : ℕ) : zoomLoop lods2 100 fuel 1 1 1 = none := by
  induction fuel with
  | zero => rfl
  | succ n ih =>
      rw [zoomLoop]
      norm_num [lods2]
      exact ih

/-- C6: on the two-level list with scales [1000, 100], threshold 500 returns
index 0; threshold 0 returns the last index for every non-empty list; but
the binary-search loop does NOT terminate for every threshold on a 2-element
list: with threshold 100 (any threshold at or below the last scale) the loop
never exits, whatever the fuel. -/
theorem getZoomLevel_facts :
    (∀ fuel : ℕ, getZoomLevel lods2 500 (fuel + 1) = some (.ok 0))
    ∧ (∀ (lods : List Lod) (fuel : ℕ), lods ≠ [] →
        getZoomLevel lods 0 fuel = some (.ok ((lods.length : ℤ) - 1)))
    ∧ (∀ fuel : ℕ, getZoomLevel lods2 100 fuel = none) := by
  refine ⟨?_, ?_, ?_⟩
  · intro fuel
    rw [getZoomLevel]
    norm_num [lods2, zoomLoop]
  · intro lods fuel _
    simp [getZoomLevel]
  · intro fuel
    cases fuel with
    | zero => rfl
    | succ n =>
        rw [getZoomLevel]
        norm_num [lods2, zoomLoop]
        exact zoomLoop_spin n

/-- Witness for C6's quantified parts at concrete fuels. -/
theorem getZoomLevel_facts_witness :
    getZoomLevel lods2 500 3 = some (.ok 0) ∧ getZoomLevel lods2 0 5 = some (.ok 1) := by
  refine ⟨getZoomLevel_facts.1 2, ?_⟩
  have h := getZoomLevel_facts.2.1 lods2 5 (by decide)
  simpa [lods2] using h

/-- Helper for C10: the loop state keeps every probed index inside the list
(0 <= low <= current <= high <= length - 1 is preserved), so no iteration
reads out of bounds. -/
theorem zoomLoop_no_oob (lods : List Lod) (scaleLimit : ℚ) (fuel : ℕ) :
    ∀ lowLod highLod currentLod : ℤ,
      0 ≤ lowLod → lowLod ≤ currentLod → currentLod ≤ highLod →
      highLod ≤ (lods.length : ℤ) - 1 →
      noOob (zoomLoop lods scaleLimit fuel lowLod highLod currentLod) := by
  induction fuel with
  | zero => intro low high current _ _ _ _ e h; exact Option.noConfusion h
  | succ n ih =>
      intro low high current h0 hlc hch hhl
      have hcn : current.toNat < lods.length := by omega
      have hcc : 0 ≤ current := by omega
      rw [zoomLoop]
      rcases List.get?_eq_get hcn with hget
      rw [if_pos hcc, hget]
      dsimp only
      by_cases hscale : (lods.get ⟨current.toNat, hcn⟩).scale ≥ scaleLimit
      · rw [if_pos hscale, if_pos hscale]
        by_cases hfound : high = current + 1
        · rw [if_pos hfound]
          intro e h
          exact Except.noConfusion (Option.some.inj h)
        · rw [if_neg hfound]
          exact ih current high ((high + current) / 2) (by omega) (by omega) (by omega) hhl
      · rw [if_neg hscale, if_neg hscale]
        by_cases hfound : current = low + 1
        · rw [if_pos hfound]
          intro e h
          exact Except.noConfusion (Option.some.inj h)
        · rw [if_neg hfound]
          exact ih low current ((current + low) / 2) h0 (by omega) (by omega) (by omega)

/-- C10: the out-of-bounds branch of the zoom-level search is unreachable
exactly when the list has at least 2 levels or the threshold is 0.  With a
single level (or none) and a nonzero threshold, the first probe reads index
ceil(length/2), which is out of bounds, and the embedded function throws;
with 2 or more levels, or threshold 0, no probe is ever out of bounds. -/
theorem getZoomLevel_oob_precondition :
    (∀ (lods : List Lod) (maxScale : ℚ) (fuel : ℕ),
      2 ≤ lods.length ∨ maxScale = 0 → noOob (getZoomLevel lods maxScale fuel))
    ∧ (∀ (lods : List Lod) (maxScale : ℚ) (fuel : ℕ),
      lods.length ≤ 1 → maxScale ≠ 0 →
        getZoomLevel lods maxScale (fuel + 1) =
          some (.error "TypeError: cannot read scale of undefined")) := by
  constructor
  · intro lods maxScale fuel h
    rcases h with h2 | h0
    · rw [getZoomLevel]
      by_cases hz : maxScale = 0
      · rw [if_pos hz]
        intro e h
        exact Except.noConfusion (Option.some.inj h)
      · rw [if_neg hz]
        refine zoomLoop_no_oob lods maxScale fuel 0 ((lods.length : ℤ) - 1)
          (((lods.length + 1) / 2 : ℕ) : ℤ) (by omega) (by omega) ?_ (by omega)
        omega
    · rw [getZoomLevel, if_pos h0]
      intro e h
      exact Except.noConfusion (Option.some.inj h)
  · intro lods maxScale fuel hlen hz
    rw [getZoomLevel, if_neg hz, zoomLoop]
    have hoob : lods.get? (((lods.length + 1) / 2 : ℕ) : ℤ).toNat = none := by
      apply List.get?_eq_none.mpr
      omega
    rw [if_pos (by positivity), hoob]

/-- Witness for C10 at concrete inputs: the two-level list never hits the
out-of-bounds branch, and a one-level list with nonzero threshold throws. -/
theorem getZoomLevel_oob_precondition_witness :
    getZoomLevel lods2 500 5 ≠ some (.error "boom")
    ∧ getZoomLevel [ { scale := 1000 } ] 500 3 =
        some (.error "TypeError: cannot read scale of undefined") := by
  constructor
  · exact getZoomLevel_oob_precondition.1 lods2 500 5 (Or.inl (by decide)) "boom"
  · exact getZoomLevel_oob_precondition.2 [ { scale := 1000 } ] 500 2 (by decide) (by norm_num)

/-- Helper: the unique-value arm of `searchRenderer` returns normally for
every computed graphic key (both find-hit and default). -/
theorem uv_arm_ok (renderer : Renderer) (graphicKey : String) :
    ∃ res,
      (match renderer.uniqueValueInfos.find? (fun uvi => uvi.value == graphicKey) with
      | some uvi =>
          (Except.ok { imageUrl := uvi.imageUrl, symbol := some uvi.symbol } :
            Except String RendResult)
      | none => Except.ok (defaultResult renderer)) = .ok res := by
  split
  · exact ⟨_, rfl⟩
  · exact ⟨_, rfl⟩

/-- Helper: the class-breaks arm of `searchRenderer` returns normally for
every fetched attribute value (below-minimum default, find-hit, or
above-range default). -/
theorem cb_arm_ok (renderer : Renderer) (gVal : Option Value) :
    ∃ res,
      (if jsLt gVal renderer.minValue then
        (Except.ok (defaultResult renderer) : Except String RendResult)
      else
        match (renderer.classBreakInfos.zip
            ((renderer.minValue - 1) :: renderer.classBreakInfos.map (fun cbi => cbi.maxValue))).find?
            (fun p => jsGt gVal p.2 && jsLe gVal p.1.maxValue) with
        | some p => Except.ok { imageUrl := p.1.imageUrl, symbol := some p.1.symbol }
        | none => Except.ok (defaultResult renderer)) = .ok res := by
  split
  · exact ⟨_, rfl⟩
  · split
    · exact ⟨_, rfl⟩
    · exact ⟨_, rfl⟩

/-- C1 (amended): the classifier returns normally for every attributes
mapping and renderer, except that for a unique-value renderer the field1
attribute value must be present and non-null (otherwise the source calls
`.toString()` on null/undefined and throws); in particular a renderer whose
type is not simple/uniqueValue/classBreaks logs a warning and returns the
empty result (imageUrl the empty string, symbol the empty object), and
`getGraphicIcon`/`getGraphicSymbol` project the same result. -/
theorem searchRenderer_never_throws (attributes : Attributes) (renderer : Renderer)
    (h : renderer.type = UNIQUE_VALUE →
      ∃ v, attrGet attributes (jsStr renderer.field1) = some v ∧ v ≠ Value.null) :
    (∃ res, searchRenderer attributes renderer = .ok res
      ∧ getGraphicIcon attributes renderer = .ok res.imageUrl
      ∧ getGraphicSymbol attributes renderer = .ok res.symbol)
    ∧ (renderer.type ≠ SIMPLE → renderer.type ≠ UNIQUE_VALUE → renderer.type ≠ CLASS_BREAKS →
        searchRenderer attributes renderer = .ok { imageUrl := some "", symbol := none }) := by
  have hok : ∃ res, searchRenderer attributes renderer = .ok res := by
    unfold searchRenderer
    by_cases h1 : renderer.type = SIMPLE
    · rw [if_pos h1]
      exact ⟨_, rfl⟩
    · rw [if_neg h1]
      by_cases h2 : renderer.type = UNIQUE_VALUE
      · rw [if_pos h2]
        rcases h h2 with ⟨v, hv, hn⟩
        have hs : ∃ s, jsToStringStrict (attrGet attributes (jsStr renderer.field1)) = some s := by
          rw [hv]
          cases v with
          | null => exact absurd rfl hn
          | str s => exact ⟨s, rfl⟩
          | num q => exact ⟨qToString q, rfl⟩
        rcases hs with ⟨s, hs⟩
        rw [hs]
        exact uv_arm_ok renderer _
      · rw [if_neg h2]
        by_cases h3 : renderer.type = CLASS_BREAKS
        · rw [if_pos h3]
          exact cb_arm_ok renderer _
        · rw [if_neg h3]
          exact ⟨_, rfl⟩
  rcases hok with ⟨res, hres⟩
  refine ⟨⟨res, hres, ?_, ?_⟩, ?_⟩
  · rw [getGraphicIcon, hres]
    rfl
  · rw [getGraphicSymbol, hres]
    rfl
  · intro hn1 hn2 hn3
    unfold searchRenderer
    rw [if_neg hn1, if_neg hn2, if_neg hn3]

/-- Counterexample to C1 as stated: a unique-value renderer classified
against an attributes mapping that lacks the field1 key throws a TypeError
(the source calls `.toString()` on `undefined`), so the classifier does not
return normally on every input. -/
theorem searchRenderer_throws_on_missing_field :
    searchRenderer [] uvR =
      .error "TypeError: cannot read toString of null or undefined" := by
  rfl

/-- Witness for C1 (amended) at a concrete unique-value input. -/
theorem searchRenderer_never_throws_witness :
    ∃ res, searchRenderer [("f1", Value.str "A"), ("f2", Value.str "B")] uvR = .ok res
      ∧ getGraphicIcon [("f1", Value.str "A"), ("f2", Value.str "B")] uvR = .ok res.imageUrl
      ∧ getGraphicSymbol [("f1", Value.str "A"), ("f2", Value.str "B")] uvR = .ok res.symbol := by
  have h := searchRenderer_never_throws [("f1", Value.str "A"), ("f2", Value.str "B")] uvR
    (fun _ => ⟨Value.str "A", by decide, by decide⟩)
  exact h.1

/-- Helper: the find-or-default tail of the unique-value arm equals the
spec-worded selection for every key. -/
theorem uv_match_spec (renderer : Renderer) (key : String) :
    (match renderer.uniqueValueInfos.find? (fun uvi => uvi.value == key) with
    | some uvi =>
        (Except.ok { imageUrl := uvi.imageUrl, symbol := some uvi.symbol } :
          Except String RendResult)
    | none => Except.ok (defaultResult renderer)) = .ok (uvSpecSelect renderer key) := by
  unfold uvSpecSelect
  cases hf : renderer.uniqueValueInfos.find? (fun uvi => uvi.value == key) <;> simp [hf]

/-- C3 (amended): for every unique-value renderer and attributes mapping in
which field1's value is present AND NON-NULL, the lookup key is field1's
value coerced to string, with ", " plus field2's raw value appended when
field2 is configured and ", " plus field3's raw value appended when field3
is also configured; the result is the first uniqueValueInfos entry whose
value equals that key exactly, else the renderer's default icon/symbol.
With one entry keyed "A, B" on two fields, {f1: "A", f2: "B"} matches it and
{f1: "A", f2: "C"} falls to the default.  (A present null value throws
instead, see the counterexample.) -/
theorem uniqueValue_key_selection (attributes : Attributes) (renderer : Renderer) (v : Value)
    (ht : renderer.type = UNIQUE_VALUE)
    (hv : attrGet attributes (jsStr renderer.field1) = some v)
    (hn : v ≠ Value.null) :
    searchRenderer attributes renderer =
      .ok (uvSpecSelect renderer (uvSpecKey attributes renderer (valToStr v)))
    ∧ searchRenderer [("f1", Value.str "A"), ("f2", Value.str "B")] uvR =
        .ok { imageUrl := some "u", symbol := some symA }
    ∧ searchRenderer [("f1", Value.str "A"), ("f2", Value.str "C")] uvR =
        .ok (defaultResult uvR) := by
  refine ⟨?_, ?_, ?_⟩
  · have h1 : renderer.type ≠ SIMPLE := by
      rw [ht]
      decide
    have hs : jsToStringStrict (attrGet attributes (jsStr renderer.field1)) =
        some (valToStr v) := by
      rw [hv]
      cases v with
      | null => exact absurd rfl hn
      | str s => rfl
      | num q => rfl
    have hkey : (if optTruthy renderer.field2 then
          let key2 := valToStr v ++ ", " ++ jsConcat (attrGet attributes (jsStr renderer.field2))
          if optTruthy renderer.field3 then
            key2 ++ ", " ++ jsConcat (attrGet attributes (jsStr renderer.field3))
          else key2
        else valToStr v) = uvSpecKey attributes renderer (valToStr v) := by
      unfold uvSpecKey
      split_ifs <;> simp [String.append_assoc]
    unfold searchRenderer
    rw [if_neg h1, if_pos ht, hs]
    exact (uv_match_spec renderer _).trans (by rw [hkey])
  · simp [searchRenderer, uvR, attrGet, jsStr, jsToStringStrict, jsConcat, optTruthy,
      defaultResult, List.find?, SIMPLE, UNIQUE_VALUE, CLASS_BREAKS]
  · simp [searchRenderer, uvR, attrGet, jsStr, jsToStringStrict, jsConcat, optTruthy,
      defaultResult, List.find?, SIMPLE, UNIQUE_VALUE, CLASS_BREAKS]

/-- Counterexample to C3 as stated: with field1's value present but null,
no lookup key exists and no result is returned at all: the classifier
throws (null has no `.toString`). -/
theorem uniqueValue_null_no_result :
    attrGet [("f1", Value.null)] (jsStr uvR.field1) = some Value.null
    ∧ searchRenderer [("f1", Value.null)] uvR =
        .error "TypeError: cannot read toString of null or undefined" :=
  ⟨rfl, rfl⟩

/-- Witness for C3 (amended) at the concrete two-field example. -/
theorem uniqueValue_key_selection_witness :
    searchRenderer [("f1", Value.str "A"), ("f2", Value.str "B")] uvR =
      .ok (uvSpecSelect uvR
        (uvSpecKey [("f1", Value.str "A"), ("f2", Value.str "B")] uvR
          (valToStr (Value.str "A")))) := by
  have h := uniqueValue_key_selection [("f1", Value.str "A"), ("f2", Value.str "B")] uvR
    (Value.str "A") (by decide) (by decide) (by decide)
  exact h.1

/-- Helper for C2: the source's index-wise lower-bound probe (the entries
zipped against minus-one-fronted upper bounds, which silently ignores the
final extra bound) selects the same entry as the spec's zip of the
lower-bound list (minimum - 1 followed by all upper bounds except the last)
with the entries. -/
theorem cb_find_swap (infos : List CBInfo) (lb v : ℚ) :
    ((infos.zip (lb :: infos.map (fun cbi => cbi.maxValue))).find?
        (fun p => decide (p.2 < v) && decide (v ≤ p.1.maxValue))).map (fun p => p.1)
    = (((lb :: (infos.map (fun cbi => cbi.maxValue)).dropLast).zip infos).find?
        (fun p => decide (p.1 < v) && decide (v ≤ p.2.maxValue))).map (fun p => p.2) := by
  induction infos generalizing lb with
  | nil => rfl
  | cons c cs ih =>
      cases cs with
      | nil =>
          cases hp : decide (lb < v) && decide (v ≤ c.maxValue) <;>
            simp [List.find?_cons, hp]
      | cons d ds =>
          simp only [List.map_cons, List.dropLast_cons₂, List.zip_cons_cons, List.find?_cons]
          cases hp : decide (lb < v) && decide (v ≤ c.maxValue) with
          | true => simp [hp]
          | false =>
              simpa only [List.map_cons, List.dropLast_cons₂, List.zip_cons_cons,
                List.find?_cons, hp] using ih c.maxValue

/-- Helper: the class-breaks find-or-default tail, as a function of the
optional matched pair. -/
theorem cb_match_eq_result (renderer : Renderer) (F : Option (CBInfo × ℚ)) :
    (match F with
    | some p => (Except.ok { imageUrl := p.1.imageUrl, symbol := some p.1.symbol } :
        Except String RendResult)
    | none => Except.ok (defaultResult renderer)) =
      .ok (cbResultOf renderer (F.map (fun p => p.1))) := by
  cases F <;> rfl

/-- Helper: the spec-worded class-breaks selection above the minimum, as a
function of the optional matched pair. -/
theorem cbSpecSelect_eq (renderer : Renderer) (v : ℚ) (h : ¬ v < renderer.minValue) :
    cbSpecSelect renderer v =
      cbResultOf renderer
        ((((cbLowerBounds renderer).zip renderer.classBreakInfos).find?
          (fun p => decide (p.1 < v) && decide (v ≤ p.2.maxValue))).map (fun p => p.2)) := by
  unfold cbSpecSelect
  rw [if_neg h]
  cases hG : ((cbLowerBounds renderer).zip renderer.classBreakInfos).find?
      (fun p => decide (p.1 < v) && decide (v ≤ p.2.maxValue)) <;>
    simp [hG, cbResultOf]

/-- C2 (amended): for a class-breaks renderer reading a numeric field value
v, the choice is exactly the spec's: v below the minimum gives the default;
otherwise the first entry i with lowerBound[i] < v <= upperBound[i], where
the lower bounds are (minimum - 1) followed by each entry's upper bound
except the last, and the default when no entry's range contains v - in
particular when v is above EVERY entry's upper bound.  On breaks [10,20,30]
with minimum 0: value 5 and value 10 select entry 0, 10.01 selects entry 1,
31 and -1 give the default. -/
theorem classBreaks_selection (renderer : Renderer) (attributes : Attributes) (v : ℚ)
    (ht : renderer.type = CLASS_BREAKS)
    (hv : attrGet attributes (jsStr renderer.field) = some (Value.num v)) :
    searchRenderer attributes renderer = .ok (cbSpecSelect renderer v)
    ∧ (v < renderer.minValue → cbSpecSelect renderer v = defaultResult renderer)
    ∧ ((∀ cbi ∈ renderer.classBreakInfos, cbi.maxValue < v) →
        cbSpecSelect renderer v = defaultResult renderer)
    ∧ searchRenderer [("v", Value.num 5)] cbR =
        .ok { imageUrl := some "u0", symbol := some symA }
    ∧ searchRenderer [("v", Value.num 10)] cbR =
        .ok { imageUrl := some "u0", symbol := some symA }
    ∧ searchRenderer [("v", Value.num (1001/100))] cbR =
        .ok { imageUrl := some "u1", symbol := some symA }
    ∧ searchRenderer [("v", Value.num 31)] cbR = .ok (defaultResult cbR)
    ∧ searchRenderer [("v", Value.num (-1))] cbR = .ok (defaultResult cbR) := by
  refine ⟨?_, ?_, ?_, ?_, ?_, ?_, ?_, ?_⟩
  · have h1 : renderer.type ≠ SIMPLE := by
      rw [ht]
      decide
    have h2 : renderer.type ≠ UNIQUE_VALUE := by
      rw [ht]
      decide
    unfold searchRenderer
    rw [if_neg h1, if_neg h2, if_pos ht]
    dsimp only
    rw [hv]
    simp only [jsLt, jsGt, jsLe, jsToNum]
    by_cases hvm : v < renderer.minValue
    · rw [if_pos (by simpa using hvm)]
      unfold cbSpecSelect
      rw [if_pos hvm]
    · rw [if_neg (by simpa using hvm)]
      rw [cbSpecSelect_eq renderer v hvm]
      refine (cb_match_eq_result renderer _).trans ?_
      have hs := cb_find_swap renderer.classBreakInfos (renderer.minValue - 1) v
      exact congrArg (fun o => Except.ok (cbResultOf renderer o))
        (by simpa only [cbLowerBounds] using hs)
  · intro h
    unfold cbSpecSelect
    rw [if_pos h]
  · intro hall
    unfold cbSpecSelect
    split_ifs with hvm
    · rfl
    · have hnone : (((cbLowerBounds renderer).zip renderer.classBreakInfos).find?
          (fun p => decide (p.1 < v) && decide (v ≤ p.2.maxValue))) = none := by
        apply List.find?_eq_none.mpr
        rintro ⟨lb, cbi⟩ hmem
        have hc : cbi ∈ renderer.classBreakInfos := (List.of_mem_zip hmem).2
        have hlt := hall cbi hc
        simp only [Bool.and_eq_true, decide_eq_true_eq, not_and]
        intro _
        linarith
      rw [hnone]
  · simp [searchRenderer, cbR, attrGet, jsStr, jsLt, jsGt, jsLe, jsToNum,
      jsToStringStrict, List.find?, defaultResult, SIMPLE, UNIQUE_VALUE, CLASS_BREAKS] <;>
      norm_num
  · simp [searchRenderer, cbR, attrGet, jsStr, jsLt, jsGt, jsLe, jsToNum,
      jsToStringStrict, List.find?, defaultResult, SIMPLE, UNIQUE_VALUE, CLASS_BREAKS] <;>
      norm_num
  · simp [searchRenderer, cbR, attrGet, jsStr, jsLt, jsGt, jsLe, jsToNum,
      jsToStringStrict, List.find?, defaultResult, SIMPLE, UNIQUE_VALUE, CLASS_BREAKS] <;>
      norm_num
  · simp [searchRenderer, cbR, attrGet, jsStr, jsLt, jsGt, jsLe, jsToNum,
      jsToStringStrict, List.find?, defaultResult, SIMPLE, UNIQUE_VALUE, CLASS_BREAKS] <;>
      norm_num
  · simp [searchRenderer, cbR, attrGet, jsStr, jsLt, jsGt, jsLe, jsToNum,
      jsToStringStrict, List.find?, defaultResult, SIMPLE, UNIQUE_VALUE, CLASS_BREAKS] <;>
      norm_num

/-- Counterexample to C2 as stated: with entries not sorted by upper bound
(upper bounds [30, 10], minimum 0), the value 20 is above the LAST upper
bound (10) yet does not yield the default: entry 0's range (-1, 30] matches
first.  "v above the last upper bound yields the default" fails. -/
theorem classBreaks_above_last_not_default :
    (cbUnsortedR.classBreakInfos.map (fun cbi => cbi.maxValue)).getLast? = some 10
    ∧ ((10 : ℚ) < 20)
    ∧ searchRenderer [("v", Value.num 20)] cbUnsortedR =
        .ok { imageUrl := some "u0", symbol := some symA }
    ∧ ({ imageUrl := some "u0", symbol := some symA } : RendResult) ≠
        defaultResult cbUnsortedR := by
  refine ⟨by simp [cbUnsortedR], by norm_num, ?_, by simp [defaultResult, cbUnsortedR]⟩
  simp [searchRenderer, cbUnsortedR, attrGet, jsStr, jsLt, jsGt, jsLe, jsToNum,
    jsToStringStrict, List.find?, defaultResult, SIMPLE, UNIQUE_VALUE, CLASS_BREAKS] <;>
    norm_num

/-- Witness for C2 (amended) at the concrete example renderer. -/
theorem classBreaks_selection_witness :
    searchRenderer [("v", Value.num 5)] cbR =
      .ok { imageUrl := some "u0", symbol := some symA } := by
  have h := classBreaks_selection cbR [("v", Value.num 5)] 5 (by decide)
    (by simp [attrGet, jsStr, cbR])
  exact h.2.2.2.1

/-- Helper for C4: in a legend section whose entry labels are pairwise
distinct, the label-to-data-URL lookup built by `enhanceRenderer` maps each
entry's label to exactly that entry's data URL (last-write-wins is
irrelevant without duplicates). -/
theorem legendLookup_nodup (entries : List LegendEntry)
    (hnd : (entries.map (fun e => jsStr e.label)).Nodup) :
    ∀ e ∈ entries, legendLookup entries (jsStr e.label) = some (entryURI e) := by
  induction entries with
  | nil => intro e he; cases he
  | cons x xs ih =>
      intro e he
      rw [legendLookup, List.reverse_cons, List.find?_append]
      rcases List.mem_cons.mp he with rfl | hmem
      · have hnotin : jsStr e.label ∉ xs.map (fun a => jsStr a.label) :=
          (List.nodup_cons.mp hnd).1
        have hxs : xs.reverse.find? (fun entry => jsStr entry.label == jsStr e.label) = none := by
          apply List.find?_eq_none.mpr
          intro a ha
          have hmem2 : a ∈ xs := List.mem_reverse.mp ha
          simp only [beq_iff_eq]
          intro heq
          exact hnotin (heq ▸ List.mem_map_of_mem (fun a => jsStr a.label) hmem2)
        rw [hxs]
        simp [List.find?]
      · have hnd2 := (List.nodup_cons.mp hnd).2
        have hih := ih hnd2 e hmem
        rw [legendLookup] at hih
        rcases Option.map_eq_some'.mp hih with ⟨a, ha, hA⟩
        rw [ha]
        simp only [Option.or, Option.map_some']
        rw [hA]

/-- C4 (amended): legend construction followed by enhancement attaches to
each renderer branch exactly the data URI (data:contentType base,imageData)
of the legend entry produced for that branch, PROVIDED each branch's legend
entry keeps that branch's label (no symbol-conversion degradation to
"Error!"), a default symbol is present whenever a default label is
configured, and the labels of the produced legend entries are pairwise
distinct. -/
theorem enhance_roundtrip (renderer : Renderer) (index : ℤ)
    (hkeepS : renderer.type = SIMPLE →
      (symbolToLegend renderer.symbol renderer.label).label = renderer.label)
    (hkeepU : ∀ uvi ∈ renderer.uniqueValueInfos,
      (symbolToLegend (some uvi.symbol) (some uvi.label)).label = some uvi.label)
    (hkeepC : ∀ cbi ∈ renderer.classBreakInfos,
      (symbolToLegend (some cbi.symbol) (some cbi.label)).label = some cbi.label)
    (hkeepD : ∀ ds, renderer.defaultSymbol = some ds →
      (symbolToLegend (some ds) (some (jsOrEmpty renderer.defaultLabel))).label =
        some (jsOrEmpty renderer.defaultLabel))
    (hdef : optTruthy renderer.defaultLabel = true → renderer.defaultSymbol ≠ none)
    (hnd : ∀ layer ∈ (rendererToLegend renderer index).layers,
      (layer.legend.map (fun e => jsStr e.label)).Nodup) :
    (renderer.type = SIMPLE →
      enhanceRenderer renderer (rendererToLegend renderer index) =
        .ok { renderer with
          imageUrl := some (entryURI (symbolToLegend renderer.symbol renderer.label)) })
    ∧ (renderer.type = UNIQUE_VALUE →
      enhanceRenderer renderer (rendererToLegend renderer index) =
        .ok { renderer with
          uniqueValueInfos := renderer.uniqueValueInfos.map (fun uvi =>
            { uvi with
              imageUrl := some (entryURI (symbolToLegend (some uvi.symbol) (some uvi.label))) }),
          defaultImageUrl :=
            if optTruthy renderer.defaultLabel then
              some (entryURI (symbolToLegend renderer.defaultSymbol
                (some (jsOrEmpty renderer.defaultLabel))))
            else renderer.defaultImageUrl })
    ∧ (renderer.type = CLASS_BREAKS →
      enhanceRenderer renderer (rendererToLegend renderer index) =
        .ok { renderer with
          classBreakInfos := renderer.classBreakInfos.map (fun cbi =>
            { cbi with
              imageUrl := some (entryURI (symbolToLegend (some cbi.symbol) (some cbi.label))) }),
          defaultImageUrl :=
            if optTruthy renderer.defaultLabel then
              some (entryURI (symbolToLegend renderer.defaultSymbol
                (some (jsOrEmpty renderer.defaultLabel))))
            else renderer.defaultImageUrl }) := by
  have hkk : optTruthy renderer.defaultLabel = true →
      jsStr renderer.defaultLabel = jsOrEmpty renderer.defaultLabel := by
    intro hdl
    cases hdlv : renderer.defaultLabel with
    | none => rw [hdlv] at hdl; simp [optTruthy] at hdl
    | some s =>
        rw [hdlv] at hdl
        have hs : s ≠ "" := by simpa [optTruthy] using hdl
        simp [jsStr, jsOrEmpty, hdlv, optTruthy, hs]
  refine ⟨?_, ?_, ?_⟩
  · intro ht
    have hR : rendererToLegend renderer index =
        ⟨[⟨index, [symbolToLegend renderer.symbol renderer.label]⟩]⟩ := by
      unfold rendererToLegend
      rw [if_pos ht]
    have hndE := hnd ⟨index, [symbolToLegend renderer.symbol renderer.label]⟩
      (by rw [hR]; exact List.mem_singleton.mpr rfl)
    have hlk := legendLookup_nodup _ hndE _ (List.mem_singleton.mpr rfl)
    rw [hkeepS ht] at hlk
    rw [hR]
    unfold enhanceRenderer
    simp only [List.head?_cons]
    rw [if_pos ht]
    rw [hlk]
  · intro ht
    have h1 : renderer.type ≠ SIMPLE := by
      rw [ht]
      decide
    have hR : rendererToLegend renderer index =
        ⟨[⟨index, scrapeListRenderer renderer (renderer.uniqueValueInfos.map UVInfo.toChild)⟩]⟩ := by
      unfold rendererToLegend
      rw [if_neg h1, if_pos ht]
    have hndE := hnd
      ⟨index, scrapeListRenderer renderer (renderer.uniqueValueInfos.map UVInfo.toChild)⟩
      (by rw [hR]; exact List.mem_singleton.mpr rfl)
    have hmemU : ∀ uvi ∈ renderer.uniqueValueInfos,
        symbolToLegend (some uvi.symbol) (some uvi.label) ∈
          scrapeListRenderer renderer (renderer.uniqueValueInfos.map UVInfo.toChild) := by
      intro uvi hm
      have hmm : symbolToLegend (some uvi.symbol) (some uvi.label) ∈
          (renderer.uniqueValueInfos.map UVInfo.toChild).map
            (fun child => symbolToLegend (some child.symbol) (some child.label)) := by
        rw [List.map_map]
        exact List.mem_map_of_mem _ hm
      unfold scrapeListRenderer
      cases renderer.defaultSymbol with
      | none => exact hmm
      | some ds => exact List.mem_append_left _ hmm
    have hlookupU : ∀ uvi ∈ renderer.uniqueValueInfos,
        legendLookup (scrapeListRenderer renderer
            (renderer.uniqueValueInfos.map UVInfo.toChild)) uvi.label =
          some (entryURI (symbolToLegend (some uvi.symbol) (some uvi.label))) := by
      intro uvi hm
      have hlk := legendLookup_nodup _ hndE _ (hmemU uvi hm)
      rw [hkeepU uvi hm] at hlk
      simpa [jsStr] using hlk
    have hdefEq : (if optTruthy renderer.defaultLabel then
          legendLookup (scrapeListRenderer renderer
            (renderer.uniqueValueInfos.map UVInfo.toChild)) (jsStr renderer.defaultLabel)
        else renderer.defaultImageUrl) =
        (if optTruthy renderer.defaultLabel then
          some (entryURI (symbolToLegend renderer.defaultSymbol
            (some (jsOrEmpty renderer.defaultLabel))))
        else renderer.defaultImageUrl) := by
      by_cases hdl : optTruthy renderer.defaultLabel
      · rw [if_pos hdl, if_pos hdl]
        cases hds : renderer.defaultSymbol with
        | none => exact absurd hds (hdef hdl)
        | some ds =>
            have hmemD : symbolToLegend (some ds) (some (jsOrEmpty renderer.defaultLabel)) ∈
                scrapeListRenderer renderer (renderer.uniqueValueInfos.map UVInfo.toChild) := by
              unfold scrapeListRenderer
              rw [hds]
              exact List.mem_append_right _ (List.mem_singleton.mpr rfl)
            have hlk := legendLookup_nodup _ hndE _ hmemD
            rw [hkeepD ds hds] at hlk
            rw [hkk hdl]
            simpa [jsStr] using hlk
      · rw [if_neg hdl, if_neg hdl]
    rw [hR]
    unfold enhanceRenderer
    simp only [List.head?_cons]
    rw [if_neg h1, if_pos ht]
    rw [List.map_congr_left (fun uvi hm => by rw [hlookupU uvi hm]), hdefEq]
  · intro ht
    have h1 : renderer.type ≠ SIMPLE := by
      rw [ht]
      decide
    have h2 : renderer.type ≠ UNIQUE_VALUE := by
      rw [ht]
      decide
    have hR : rendererToLegend renderer index =
        ⟨[⟨index, scrapeListRenderer renderer (renderer.classBreakInfos.map CBInfo.toChild)⟩]⟩ := by
      unfold rendererToLegend
      rw [if_neg h1, if_neg h2, if_pos ht]
    have hndE := hnd
      ⟨index, scrapeListRenderer renderer (renderer.classBreakInfos.map CBInfo.toChild)⟩
      (by rw [hR]; exact List.mem_singleton.mpr rfl)
    have hmemC : ∀ cbi ∈ renderer.classBreakInfos,
        symbolToLegend (some cbi.symbol) (some cbi.label) ∈
          scrapeListRenderer renderer (renderer.classBreakInfos.map CBInfo.toChild) := by
      intro cbi hm
      have hmm : symbolToLegend (some cbi.symbol) (some cbi.label) ∈
          (renderer.classBreakInfos.map CBInfo.toChild).map
            (fun child => symbolToLegend (some child.symbol) (some child.label)) := by
        rw [List.map_map]
        exact List.mem_map_of_mem _ hm
      unfold scrapeListRenderer
      cases renderer.defaultSymbol with
      | none => exact hmm
      | some ds => exact List.mem_append_left _ hmm
    have hlookupC : ∀ cbi ∈ renderer.classBreakInfos,
        legendLookup (scrapeListRenderer renderer
            (renderer.classBreakInfos.map CBInfo.toChild)) cbi.label =
          some (entryURI (symbolToLegend (some cbi.symbol) (some cbi.label))) := by
      intro cbi hm
      have hlk := legendLookup_nodup _ hndE _ (hmemC cbi hm)
      rw [hkeepC cbi hm] at hlk
      simpa [jsStr] using hlk
    have hdefEq : (if optTruthy renderer.defaultLabel then
          legendLookup (scrapeListRenderer renderer
            (renderer.classBreakInfos.map CBInfo.toChild)) (jsStr renderer.defaultLabel)
        else renderer.defaultImageUrl) =
        (if optTruthy renderer.defaultLabel then
          some (entryURI (symbolToLegend renderer.defaultSymbol
            (some (jsOrEmpty renderer.defaultLabel))))
        else renderer.defaultImageUrl) := by
      by_cases hdl : optTruthy renderer.defaultLabel
      · rw [if_pos hdl, if_pos hdl]
        cases hds : renderer.defaultSymbol with
        | none => exact absurd hds (hdef hdl)
        | some ds =>
            have hmemD : symbolToLegend (some ds) (some (jsOrEmpty renderer.defaultLabel)) ∈
                scrapeListRenderer renderer (renderer.classBreakInfos.map CBInfo.toChild) := by
              unfold scrapeListRenderer
              rw [hds]
              exact List.mem_append_right _ (List.mem_singleton.mpr rfl)
            have hlk := legendLookup_nodup _ hndE _ hmemD
            rw [hkeepD ds hds] at hlk
            rw [hkk hdl]
            simpa [jsStr] using hlk
      · rw [if_neg hdl, if_neg hdl]
    rw [hR]
    unfold enhanceRenderer
    simp only [List.head?_cons]
    rw [if_neg h1, if_neg h2, if_pos ht]
    rw [List.map_congr_left (fun cbi hm => by rw [hlookupC cbi hm]), hdefEq]

/-- Counterexample to C4 as stated: a supported simple renderer whose one
branch (label "L", labels trivially distinct) holds a text symbol.  Legend
construction degrades the entry's label to "Error!", so no legend entry
exists for "L"; enhancement then attaches `undefined` (none), not the data
URI built from the branch's legend entry. -/
theorem enhance_roundtrip_text_fails :
    rendererToLegend sTextR 0 = ⟨[⟨0, [errorLegendEntry]⟩]⟩
    ∧ enhanceRenderer sTextR (rendererToLegend sTextR 0) = .ok sTextR
    ∧ sTextR.imageUrl = none := by
  refine ⟨rfl, rfl, rfl⟩

/-- Witness for C4 (amended): a simple renderer with a picture symbol
(label "L") gets exactly its legend entry's data URI attached. -/
theorem enhance_roundtrip_witness :
    enhanceRenderer sPicR (rendererToLegend sPicR 0) =
      .ok { sPicR with
            imageUrl := some (entryURI (symbolToLegend sPicR.symbol sPicR.label)) } := by
  have h := enhance_roundtrip sPicR 0 (fun _ => rfl)
    (by intro uvi hm; cases hm)
    (by intro cbi hm; cases hm)
    (by intro ds hds; cases hds)
    (by intro hdl; simp [sPicR, optTruthy] at hdl)
    (by decide)
  exact h.1 rfl
